import Mathlib

/-!
# Verification of opm-models claims

Shallow embedding of the claim-relevant parts of the opm-models
repository (flash volume variables, multi-phase base problem, injection
problem, VTK black-oil output module, Stokes 2cni model) and proofs of
the frozen claims about them.

Scalars (`double` in the C++ source) are modelled as rationals `ℚ`;
fixed-size `Dune::FieldVector` / `FieldMatrix` values are modelled as
`List ℚ` / `List (List ℚ)`.
-/

namespace Ewoms

/-- A compositional fluid state, mirroring
`Opm::CompositionalFluidState`: per-phase pressure, a temperature
(`CompositionalFluidState` stores a single temperature shared by all
phases), per-phase/per-component composition, per-phase density,
viscosity and enthalpy. -/
structure FluidState where
  temperature : ℚ
  pressure : List ℚ
  moleFraction : List (List ℚ)
  density : List ℚ
  viscosity : List ℚ
  enthalpy : List ℚ
deriving DecidableEq, Repr

/-- `CompositionalFluidState::setTemperature`: sets the (phase-shared)
temperature. -/
def FluidState.setTemperature (fs : FluidState) (T : ℚ) : FluidState :=
  { fs with temperature := T }

/-- `CompositionalFluidState::assign`: copy every field of the other
fluid state. -/
def FluidState.assign (_fs other : FluidState) : FluidState :=
  other

/-- Material-law parameter object (opaque payload; the flash model never
inspects it, it only forwards it to the material law / flash solver). -/
structure MaterialLawParams where
  payload : ℚ := 0
deriving DecidableEq, Repr

instance : Inhabited MaterialLawParams := ⟨{}⟩

/-- Modelled from the spec: `EnergyVolumeVariables::updateTemperatures_`
(in `energymodule.hh`, not under `src/`) determines the fluid state's
temperature from the current primary variables ("volume variables are
recomputed every Newton iteration from the current primary-variable
guess").  The temperature so determined is carried by the element
context model as `temperatureFromPriVars`. -/
def updateTemperatures (fs : FluidState) (temperatureFromPriVars : ℚ) : FluidState :=
  { fs with temperature := temperatureFromPriVars }

/-- Modelled from the spec: `FlashSolver::guessInitial` (external solver
component, not under `src/`) initializes the fluid state from the total
component amounts before the flash solve. -/
def flashGuessInitial (fs : FluidState) (cTotal : List ℚ) : FluidState :=
  { fs with moleFraction := fs.moleFraction.map (fun _ => cTotal) }

/-- Modelled from the spec: `FlashSolver::solve` (external solver
component, not under `src/`) — "Flash equilibrium: thermodynamic
computation of phase compositions/amounts at equilibrium given total
component amounts, temperature, pressure."  The solve computes the
phase compositions, densities and pressures from the starting fluid
state, the material-law parameters, the total component amounts and the
tolerance; the temperature is a given of the computation, not an
output. -/
def flashSolve (fs : FluidState) (materialParams : MaterialLawParams)
    (cTotal : List ℚ) (tolerance : ℚ) : FluidState :=
  { fs with
    moleFraction := fs.moleFraction.map
      (fun xs => xs.zipWith (fun a b => (a + b + tolerance + materialParams.payload) / 2) cTotal)
    pressure := fs.pressure.map (fun p => p + cTotal.sum)
    density := fs.density.map (fun rho => rho + cTotal.sum) }

/-- Modelled from the spec: `FluidSystem::viscosity` (external fluid
system, not under `src/`) evaluates the viscosity of a phase of the
fluid state. -/
def fluidSystemViscosity (fs : FluidState) (phaseIdx : ℕ) : ℚ :=
  (fs.density.getD phaseIdx 0) + (fs.pressure.getD phaseIdx 0) / 2

/-- Modelled from the spec: `MaterialLaw::relativePermeabilities`
(external material law, not under `src/`) evaluates the relative
permeability of every phase from the material parameters and the fluid
state ("material-law parameters (relative permeability/capillary
pressure curves)"). -/
def relativePermeabilities (numPhases : ℕ) (materialParams : MaterialLawParams)
    (fs : FluidState) : List ℚ :=
  (List.range numPhases).map
    (fun phaseIdx => materialParams.payload + (fs.moleFraction.getD phaseIdx []).sum)

/-- Modelled from the spec: `EnergyVolumeVariables::update_` (in
`energymodule.hh`, not under `src/`) computes the energy-related
quantities, i.e. sets the per-phase enthalpies of the fluid state. -/
def energyUpdateFluidState (fs : FluidState) : FluidState :=
  { fs with enthalpy := fs.density.map (fun rho => rho * fs.temperature) }

/-- The inputs `FlashVolumeVariables::update` draws from the element
context, the problem and the parameter system: the primary variables of
the degree of freedom, the temperature the energy module determines
from them, the optional thermodynamic hint, the problem's material-law
parameters, porosity and intrinsic permeability, the `FlashTolerance`
runtime parameter and the Newton solver's base epsilon. -/
structure ElementContext where
  priVars : List ℚ
  temperatureFromPriVars : ℚ
  hint : Option FluidState
  materialLawParams : MaterialLawParams
  porosity : ℚ
  intrinsicPermeability : List (List ℚ)
  flashToleranceParam : ℚ
  baseEpsilon : ℚ
deriving DecidableEq, Repr

/-- One step of the closure composed by `FlashVolumeVariables::update`,
recorded in the order the method performs them.  The flash-solve event
carries the fluid state handed to the solver, the total component
amounts, the material-law parameters and the tolerance. -/
inductive UpdateEvent where
  | parentUpdate
  | temperaturesUpdate
  | flashGuess
  | flashSolveEv (fsIn : FluidState) (cTotal : List ℚ)
      (materialParams : MaterialLawParams) (tolerance : ℚ)
  | viscosityUpdate
  | relPermCalc
  | porosityCalc
  | intrinsicPermCalc
  | velocityUpdate
  | energyUpdate
  | diffusionUpdate
deriving DecidableEq, Repr

/-- The quantities stored by `FlashVolumeVariables`. -/
structure FlashVolumeVariables where
  fluidState_ : FluidState
  porosity_ : ℚ
  intrinsicPerm_ : List (List ℚ)
  relativePermeability_ : List ℚ
deriving DecidableEq, Repr

namespace FlashVolumeVariables

/-- `FlashVolumeVariables::update` (flashvolumevariables.hh:89-169),
with `numPhases`, `numComponents` and `cTot0Idx` as explicit arguments
(they are compile-time constants in the source).  Returns the updated
volume variables together with the trace of the steps performed, in
source order:
parent update; `updateTemperatures_`; tolerance selection; extraction of
`cTotal` from the primary variables; hint handling (assign the hint's
fluid state but restore the temperature) or `guessInitial`; the flash
solve; setting the phase viscosities; relative permeabilities; porosity;
intrinsic permeability; velocity, energy and diffusion module
updates. -/
def update (vv : FlashVolumeVariables) (numPhases numComponents cTot0Idx : ℕ)
    (elemCtx : ElementContext) : FlashVolumeVariables × List UpdateEvent :=
  let fs0 := updateTemperatures vv.fluidState_ elemCtx.temperatureFromPriVars
  let priVars := elemCtx.priVars
  let flashTolerance :=
    if elemCtx.flashToleranceParam ≤ 0 then
      elemCtx.baseEpsilon / (100 * (18 / 1000))
    else
      elemCtx.flashToleranceParam
  let cTotal := (List.range numComponents).map
    (fun compIdx => priVars.getD (cTot0Idx + compIdx) 0)
  let fs1 :=
    match elemCtx.hint with
    | some hintFs =>
        let T := fs0.temperature
        (fs0.assign hintFs).setTemperature T
    | none => flashGuessInitial fs0 cTotal
  let materialParams := elemCtx.materialLawParams
  let fs2 := flashSolve fs1 materialParams cTotal flashTolerance
  let fs3 := { fs2 with
    viscosity := (List.range numPhases).map (fun p => fluidSystemViscosity fs2 p) }
  let relPerm := relativePermeabilities numPhases materialParams fs3
  let fs4 := energyUpdateFluidState fs3
  ({ fluidState_ := fs4
     porosity_ := elemCtx.porosity
     intrinsicPerm_ := elemCtx.intrinsicPermeability
     relativePermeability_ := relPerm },
   [UpdateEvent.parentUpdate, UpdateEvent.temperaturesUpdate]
     ++ (match elemCtx.hint with
         | some _ => []
         | none => [UpdateEvent.flashGuess])
     ++ [UpdateEvent.flashSolveEv fs1 cTotal materialParams flashTolerance,
         UpdateEvent.viscosityUpdate,
         UpdateEvent.relPermCalc,
         UpdateEvent.porosityCalc,
         UpdateEvent.intrinsicPermCalc,
         UpdateEvent.velocityUpdate,
         UpdateEvent.energyUpdate,
         UpdateEvent.diffusionUpdate])

/-- `FlashVolumeVariables::fluidState` — a `const` accessor: it returns
(a reference to) the private `fluidState_` member and leaves the
instance as it was, which the model records by also returning the
receiver. -/
def fluidState (vv : FlashVolumeVariables) : FluidState × FlashVolumeVariables :=
  (vv.fluidState_, vv)

/-- `FlashVolumeVariables::intrinsicPermeability` — `const` accessor. -/
def intrinsicPermeability (vv : FlashVolumeVariables) :
    List (List ℚ) × FlashVolumeVariables :=
  (vv.intrinsicPerm_, vv)

/-- `FlashVolumeVariables::relativePermeability` — `const` accessor. -/
def relativePermeability (vv : FlashVolumeVariables) (phaseIdx : ℕ) :
    ℚ × FlashVolumeVariables :=
  (vv.relativePermeability_.getD phaseIdx 0, vv)

/-- `FlashVolumeVariables::mobility` — `const` accessor:
`relativePermeability(phaseIdx) / fluidState().viscosity(phaseIdx)`. -/
def mobility (vv : FlashVolumeVariables) (phaseIdx : ℕ) :
    ℚ × FlashVolumeVariables :=
  ((vv.relativePermeability phaseIdx).1
     / ((vv.fluidState.1.viscosity).getD phaseIdx 0), vv)

/-- `FlashVolumeVariables::porosity` — `const` accessor. -/
def porosity (vv : FlashVolumeVariables) : ℚ × FlashVolumeVariables :=
  (vv.porosity_, vv)

end FlashVolumeVariables

end Ewoms

namespace Dune

/-- An isotropic `dim × dim` tensor: zero matrix with `v` on the
diagonal, as built by the `InjectionSoil` constructor loop. -/
def isotropicMatrix (dim : ℕ) (v : ℚ) : List (List ℚ) :=
  (List.range dim).map (fun i => (List.range dim).map (fun j => if i = j then v else 0))

/-- The members of `InjectionSoil` (injectionproblem.hh:205-286). -/
structure InjectionSoil where
  lowK_ : List (List ℚ)
  highK_ : List (List ℚ)
  layerBottom_ : ℚ
deriving DecidableEq, Repr

/-- The `InjectionSoil` constructor (injectionproblem.hh:269-277):
`lowK_` and `highK_` start as the zero matrix and get `5e-14` resp.
`1e-12` on the diagonal; `layerBottom_ = 22.0`. -/
def InjectionSoil.init (dim : ℕ) : InjectionSoil :=
  { lowK_ := isotropicMatrix dim (5 / 10 ^ 14)
    highK_ := isotropicMatrix dim (1 / 10 ^ 12)
    layerBottom_ := 22 }

/-- `InjectionSoil::K` (injectionproblem.hh:213-219): returns `highK_`
below the low-permeable layer (`x[1] < layerBottom_`), `lowK_`
otherwise.  The method reads only construction-time members; the model
also returns the (unchanged) soil object to record this. -/
def InjectionSoil.K (soil : InjectionSoil) (x : List ℚ) :
    List (List ℚ) × InjectionSoil :=
  (if x.getD 1 0 < soil.layerBottom_ then soil.highK_ else soil.lowK_, soil)

/-- `InjectionSoil::porosity` (injectionproblem.hh:220-223): constantly
`0.3`. -/
def InjectionSoil.porosity (soil : InjectionSoil) (_x : List ℚ) :
    ℚ × InjectionSoil :=
  (3 / 10, soil)

/-- Primary-variable index into the two-equation vector: wetting-phase
pressure. -/
def pWIdx : ℕ := 0

/-- Primary-variable index into the two-equation vector: the switch
variable (saturation or mass fraction). -/
def switchIdx : ℕ := 1

/-- The members of `InjectionProblem` (injectionproblem.hh:38-199). -/
structure InjectionProblem where
  outerLowerLeft_ : List ℚ
  outerUpperRight_ : List ℚ
  depthBOR_ : ℚ
  eps_ : ℚ
  height_ : ℚ
  width_ : ℚ
  gravity_ : List ℚ
deriving DecidableEq, Repr

/-- The `InjectionProblem` constructor (injectionproblem.hh:176-190):
stores the domain corners and `depthBOR`, computes `eps_`, `height_`,
`width_`, and sets `gravity_[0] = 0`, `gravity_[1] = -9.81`. -/
def InjectionProblem.init (outerLowerLeft outerUpperRight : List ℚ)
    (depthBOR : ℚ) : InjectionProblem :=
  { outerLowerLeft_ := outerLowerLeft
    outerUpperRight_ := outerUpperRight
    depthBOR_ := depthBOR
    eps_ := 1 / 10 ^ 8 * outerUpperRight.getD 0 0
    height_ := outerUpperRight.getD 1 0 - outerLowerLeft.getD 1 0
    width_ := outerUpperRight.getD 0 0 - outerLowerLeft.getD 0 0
    gravity_ := [0, -981 / 100] }

/-- `InjectionProblem::g` (injectionproblem.hh:71-88), the Dirichlet
boundary values: a two-component vector initialized to zero, whose
`pWIdx` entry is `1e5 - densityW * gravity_[1] * (depthBOR_ - x[1])`
(with `densityW = 1000.0`) and whose `switchIdx` entry is `1e-6`. -/
def InjectionProblem.g (prob : InjectionProblem) (x : List ℚ) : List ℚ :=
  let densityW : ℚ := 1000
  let values := List.replicate 2 (0 : ℚ)
  let values := values.set pWIdx
    (10 ^ 5 - densityW * prob.gravity_.getD 1 0 * (prob.depthBOR_ - x.getD 1 0))
  values.set switchIdx (1 / 10 ^ 6)

/-- `InjectionProblem::initial` (injectionproblem.hh:110-130), the
initial values: the vector is declared without initializer in the
source, but both components are assigned before it is returned, with
the same expressions as in `g`; the model starts from the zero vector
as well. -/
def InjectionProblem.initial (prob : InjectionProblem) (x : List ℚ) : List ℚ :=
  let densityW : ℚ := 1000
  let values := List.replicate 2 (0 : ℚ)
  let values := values.set pWIdx
    (10 ^ 5 - densityW * prob.gravity_.getD 1 0 * (prob.depthBOR_ - x.getD 1 0))
  values.set switchIdx (1 / 10 ^ 6)

end Dune

namespace Ewoms

/-- The execution-context argument of the `MultiPhaseBaseProblem`
accessors; the base-class bodies never inspect it. -/
structure Context where
  data : ℚ := 0
deriving DecidableEq, Repr

/-- Heat-conduction law parameter object (opaque; the base class never
constructs one, it only throws). -/
structure HeatConductionLawParams where
  payload : ℚ := 0
deriving DecidableEq, Repr

/-- The members of `MultiPhaseBaseProblem`
(multiphasebaseproblem.hh:54-390) that the claims concern: the gravity
vector (`protected DimVector gravity_`). -/
structure MultiPhaseBaseProblem where
  gravity_ : List ℚ
deriving DecidableEq, Repr

namespace MultiPhaseBaseProblem

/-- `MultiPhaseBaseProblem::init_` (multiphasebaseproblem.hh:384-389),
run by the constructor: `gravity_ = 0.0`, and if the `EnableGravity`
parameter holds, `gravity_[dimWorld-1] = -9.81`. -/
def init_ (dimWorld : ℕ) (enableGravity : Bool) : MultiPhaseBaseProblem :=
  let g := List.replicate dimWorld (0 : ℚ)
  { gravity_ := if enableGravity then g.set (dimWorld - 1) (-981 / 100) else g }

/-- `MultiPhaseBaseProblem::gravity` (multiphasebaseproblem.hh:293-294)
— `const` accessor returning the stored `gravity_`; the model also
returns the unchanged receiver. -/
def gravity (prob : MultiPhaseBaseProblem) : List ℚ × MultiPhaseBaseProblem :=
  (prob.gravity_, prob)

/-- `MultiPhaseBaseProblem::intrinsicPermeability`
(multiphasebaseproblem.hh:135-141): always throws `std::logic_error`. -/
def intrinsicPermeability (_prob : MultiPhaseBaseProblem) (_context : Context)
    (_spaceIdx _timeIdx : ℤ) : Except String (List (List ℚ)) :=
  .error "Not implemented: Problem::intrinsicPermeability()"

/-- `MultiPhaseBaseProblem::porosity`
(multiphasebaseproblem.hh:152-158): always throws `std::logic_error`. -/
def porosity (_prob : MultiPhaseBaseProblem) (_context : Context)
    (_spaceIdx _timeIdx : ℤ) : Except String ℚ :=
  .error "Not implemented: Problem::porosity()"

/-- `MultiPhaseBaseProblem::heatCapacitySolid`
(multiphasebaseproblem.hh:169-175): always throws `std::logic_error`. -/
def heatCapacitySolid (_prob : MultiPhaseBaseProblem) (_context : Context)
    (_spaceIdx _timeIdx : ℤ) : Except String ℚ :=
  .error "Not implemented: Problem::heatCapacitySolid()"

/-- `MultiPhaseBaseProblem::heatConductionParams`
(multiphasebaseproblem.hh:186-192): always throws `std::logic_error`. -/
def heatConductionParams (_prob : MultiPhaseBaseProblem) (_context : Context)
    (_spaceIdx _timeIdx : ℤ) : Except String HeatConductionLawParams :=
  .error "Not implemented: Problem::heatConductionParams()"

/-- `MultiPhaseBaseProblem::tortuosity`
(multiphasebaseproblem.hh:202-207): always throws `std::logic_error`. -/
def tortuosity (_prob : MultiPhaseBaseProblem) (_context : Context)
    (_spaceIdx _timeIdx : ℤ) : Except String ℚ :=
  .error "Not implemented: Problem::tortuosity()"

/-- `MultiPhaseBaseProblem::dispersivity`
(multiphasebaseproblem.hh:217-223): always throws `std::logic_error`. -/
def dispersivity (_prob : MultiPhaseBaseProblem) (_context : Context)
    (_spaceIdx _timeIdx : ℤ) : Except String ℚ :=
  .error "Not implemented: Problem::dispersivity()"

/-- `MultiPhaseBaseProblem::materialLawParams`
(multiphasebaseproblem.hh:238-244): does not throw; returns a reference
to a default-constructed static dummy parameter object. -/
def materialLawParams (_prob : MultiPhaseBaseProblem) (_context : Context)
    (_spaceIdx _timeIdx : ℤ) : Except String MaterialLawParams :=
  .ok {}

/-- `MultiPhaseBaseProblem::temperature()`
(multiphasebaseproblem.hh:266-268), the no-argument overload: always
throws `std::logic_error` when not overloaded by the actual problem. -/
def temperature (_prob : MultiPhaseBaseProblem) : Except String ℚ :=
  .error "Not implemented:temperature() method not implemented by the actual problem"

/-- `MultiPhaseBaseProblem::temperature(context, spaceIdx, timeIdx)`
(multiphasebaseproblem.hh:254-257): forwards to the no-argument
`temperature()` of the implementation (here: the base class itself,
i.e. not overridden). -/
def temperatureCtx (prob : MultiPhaseBaseProblem) (_context : Context)
    (_spaceIdx _timeIdx : ℤ) : Except String ℚ :=
  prob.temperature

end MultiPhaseBaseProblem

/-- One grid element as seen by
`MultiPhaseBaseProblem::markForGridAdaptation`: its refinement level and
the per-degree-of-freedom, per-phase saturations its intensive
quantities report. -/
structure AdaptElement where
  level : ℕ
  dofSaturations : List (List ℚ)
deriving DecidableEq, Repr

/-- The per-element, per-phase body of the loop in
`MultiPhaseBaseProblem::markForGridAdaptation`
(multiphasebaseproblem.hh:317-344): for each phase, the minimum and
maximum saturation over the element's degrees of freedom (running
extremes starting from `1e100` / `-1e100`), the indicator
`(maxSat - minSat) / (max(0.01, maxSat + minSat) / 2)`, and the mark:
`1` when `indicator > 0.2` and the level is below `2`, `-1` when
`indicator < 0.025`, `0` otherwise; `numMarked` counts the non-zero
mark calls.  Returns the element's final mark and its contribution to
`numMarked`. -/
def markElement (numPhases : ℕ) (elem : AdaptElement) : ℤ × ℕ :=
  (List.range numPhases).foldl
    (fun acc phaseIdx =>
      let sats := elem.dofSaturations.map (fun ds => ds.getD phaseIdx 0)
      let minSat := sats.foldl min ((10 : ℚ) ^ 100)
      let maxSat := sats.foldl max (-(10 : ℚ) ^ 100)
      let indicator := (maxSat - minSat) / (max (1 / 100) (maxSat + minSat) / 2)
      if indicator > 1 / 5 ∧ elem.level < 2 then (1, acc.2 + 1)
      else if indicator < 1 / 40 then (-1, acc.2 + 1)
      else (0, acc.2))
    ((0 : ℤ), (0 : ℕ))

/-- `MultiPhaseBaseProblem::markForGridAdaptation`
(multiphasebaseproblem.hh:301-351): marks every element and returns the
(communicated) total count of marked elements.  The method reads the
grid through the element context and writes marks into the grid; it
assigns to no member of the problem, which the model records by
returning the receiver unchanged along with the count and the marks. -/
def MultiPhaseBaseProblem.markForGridAdaptation
    (prob : MultiPhaseBaseProblem) (numPhases : ℕ)
    (grid : List AdaptElement) : ℤ × List ℤ × MultiPhaseBaseProblem :=
  let marks := grid.map (fun e => markElement numPhases e)
  ((marks.map (fun m => (m.2 : ℤ))).sum, marks.map Prod.fst, prob)

end Ewoms

namespace Ewoms

/-- The five `VtkWrite...` runtime parameters consulted by
`VtkBlackOilModule` (vtkblackoilmodule.hh:195-208). -/
structure VtkBlackOilParams where
  vtkWriteGasDissolutionFactor : Bool
  vtkWriteSaturatedOilGasDissolutionFactor : Bool
  vtkWriteGasFormationVolumeFactor : Bool
  vtkWriteOilFormationVolumeFactor : Bool
  vtkWriteOilSaturationPressure : Bool
deriving DecidableEq, Repr

/-- Modelled from the spec: the black-oil `FluidSystem` (external, not
under `src/`) supplies per-phase, per-PVT-region reference densities
and the black-oil property curves (gas dissolution factor, formation
volume factors, oil saturation pressure) that the output module
evaluates. -/
structure BlackOilFluidSystem where
  referenceDensityOil : ℕ → ℚ
  referenceDensityGas : ℕ → ℚ
  gasDissolutionFactor : ℚ → ℚ → ℕ → ℚ
  gasFormationVolumeFactor : ℚ → ℚ → ℚ → ℕ → ℚ
  saturatedOilFormationVolumeFactor : ℚ → ℚ → ℕ → ℚ
  oilSaturationPressure : ℚ → ℚ → ℕ → ℚ

/-- The quantities `VtkBlackOilModule::processElement` reads for one
primary degree of freedom from the element context: the global dof
index, oil-phase pressure and temperature, the mass fraction of the gas
component in the oil phase (`X_oG`), the mass fraction of the oil
component in the gas phase (`X_gO`), and the dof's PVT region index. -/
structure BlackOilDofData where
  globalDofIdx : ℕ
  pressureOil : ℚ
  temperatureOil : ℚ
  massFracOG : ℚ
  massFracGO : ℚ
  pvtRegionIdx : ℕ
deriving DecidableEq, Repr

/-- The five scalar buffers owned by `VtkBlackOilModule`
(vtkblackoilmodule.hh:210-214); a buffer that was never allocated is
the empty list. -/
structure VtkBlackOilModule where
  gasDissolutionFactor_ : List ℚ
  saturatedOilGasDissolutionFactor_ : List ℚ
  gasFormationVolumeFactor_ : List ℚ
  saturatedOilFormationVolumeFactor_ : List ℚ
  oilSaturationPressure_ : List ℚ
deriving DecidableEq, Repr

namespace VtkBlackOilModule

/-- A freshly constructed module: no buffer allocated. -/
def empty : VtkBlackOilModule :=
  { gasDissolutionFactor_ := []
    saturatedOilGasDissolutionFactor_ := []
    gasFormationVolumeFactor_ := []
    saturatedOilFormationVolumeFactor_ := []
    oilSaturationPressure_ := [] }

/-- `VtkBlackOilModule::allocBuffers` (vtkblackoilmodule.hh:123-135):
for each enabled output, resize the scalar buffer to the number of
global degrees of freedom (`resizeScalarBuffer_`, from the base output
module not under `src/`, zero-fills); disabled buffers are left
untouched. -/
def allocBuffers (m : VtkBlackOilModule) (params : VtkBlackOilParams)
    (numGlobalDof : ℕ) : VtkBlackOilModule :=
  { gasDissolutionFactor_ :=
      if params.vtkWriteGasDissolutionFactor then
        List.replicate numGlobalDof 0 else m.gasDissolutionFactor_
    saturatedOilGasDissolutionFactor_ :=
      if params.vtkWriteSaturatedOilGasDissolutionFactor then
        List.replicate numGlobalDof 0 else m.saturatedOilGasDissolutionFactor_
    gasFormationVolumeFactor_ :=
      if params.vtkWriteGasFormationVolumeFactor then
        List.replicate numGlobalDof 0 else m.gasFormationVolumeFactor_
    saturatedOilFormationVolumeFactor_ :=
      if params.vtkWriteOilFormationVolumeFactor then
        List.replicate numGlobalDof 0 else m.saturatedOilFormationVolumeFactor_
    oilSaturationPressure_ :=
      if params.vtkWriteOilSaturationPressure then
        List.replicate numGlobalDof 0 else m.oilSaturationPressure_ }

/-- The body of the dof loop in `VtkBlackOilModule::processElement`
(vtkblackoilmodule.hh:145-170): read the dof's fluid-state quantities
and reference densities and write each enabled buffer at the dof's
global index. -/
def processDof (params : VtkBlackOilParams) (fsys : BlackOilFluidSystem)
    (m : VtkBlackOilModule) (dof : BlackOilDofData) : VtkBlackOilModule :=
  let po := dof.pressureOil
  let To := dof.temperatureOil
  let xOG := dof.massFracOG
  let xGO := dof.massFracGO
  let regionIdx := dof.pvtRegionIdx
  let rhooRef := fsys.referenceDensityOil regionIdx
  let rhogRef := fsys.referenceDensityGas regionIdx
  let m :=
    if params.vtkWriteGasDissolutionFactor then
      { m with gasDissolutionFactor_ :=
          (m.gasDissolutionFactor_.set dof.globalDofIdx
            (xOG / rhogRef * rhooRef / (1 - xOG))) }
    else m
  let m :=
    if params.vtkWriteSaturatedOilGasDissolutionFactor then
      { m with saturatedOilGasDissolutionFactor_ :=
          (m.saturatedOilGasDissolutionFactor_.set dof.globalDofIdx
            (fsys.gasDissolutionFactor To po regionIdx)) }
    else m
  let m :=
    if params.vtkWriteGasFormationVolumeFactor then
      { m with gasFormationVolumeFactor_ :=
          (m.gasFormationVolumeFactor_.set dof.globalDofIdx
            (fsys.gasFormationVolumeFactor To po xGO regionIdx)) }
    else m
  let m :=
    if params.vtkWriteOilFormationVolumeFactor then
      { m with saturatedOilFormationVolumeFactor_ :=
          (m.saturatedOilFormationVolumeFactor_.set dof.globalDofIdx
            (fsys.saturatedOilFormationVolumeFactor To po regionIdx)) }
    else m
  if params.vtkWriteOilSaturationPressure then
    { m with oilSaturationPressure_ :=
        (m.oilSaturationPressure_.set dof.globalDofIdx
          (fsys.oilSaturationPressure To xOG regionIdx)) }
  else m

/-- `VtkBlackOilModule::processElement` (vtkblackoilmodule.hh:141-171):
iterate `processDof` over the element's primary degrees of freedom. -/
def processElement (params : VtkBlackOilParams) (fsys : BlackOilFluidSystem)
    (m : VtkBlackOilModule) (dofs : List BlackOilDofData) : VtkBlackOilModule :=
  dofs.foldl (processDof params fsys) m

/-- The writer handed to `commitBuffers`; the source dynamic-casts it to
`VtkMultiWriter` and bails out when the cast fails. -/
structure BaseOutputWriter where
  isVtkMultiWriter : Bool
deriving DecidableEq, Repr

/-- `VtkBlackOilModule::commitBuffers` (vtkblackoilmodule.hh:176-192):
if the writer is not a `VtkMultiWriter`, publish nothing; otherwise
publish each enabled buffer under its name (`R_s`, `R_s,sat`, `B_g`,
`B_o`, `pressure_sat,o`). -/
def commitBuffers (m : VtkBlackOilModule) (params : VtkBlackOilParams)
    (writer : BaseOutputWriter) : List (String × List ℚ) :=
  if !writer.isVtkMultiWriter then []
  else
    (if params.vtkWriteGasDissolutionFactor then
       [("R_s", m.gasDissolutionFactor_)] else [])
    ++ (if params.vtkWriteSaturatedOilGasDissolutionFactor then
          [("R_s,sat", m.saturatedOilGasDissolutionFactor_)] else [])
    ++ (if params.vtkWriteGasFormationVolumeFactor then
          [("B_g", m.gasFormationVolumeFactor_)] else [])
    ++ (if params.vtkWriteOilFormationVolumeFactor then
          [("B_o", m.saturatedOilFormationVolumeFactor_)] else [])
    ++ (if params.vtkWriteOilSaturationPressure then
          [("pressure_sat,o", m.oilSaturationPressure_)] else [])

end VtkBlackOilModule

end Ewoms

namespace Dumux

/-- Modelled from the spec: the Stokes 2cni `VolumeVariables` class is
not under `src/`; per the spec, "Volume variables: per-control-volume
cached quantities (density, viscosity, saturation, etc.) derived from
primary variables".  The cached quantities read by
`Stokes2cniModel::addOutputVtkFields` are the pressure, the mass
fraction of the light component, temperature, density, viscosity,
enthalpy and velocity. -/
structure StokesVolumeVariables where
  pressure : ℚ
  massFraction : ℚ
  temperature : ℚ
  density : ℚ
  viscosity : ℚ
  enthalpy : ℚ
  velocity : List ℚ
deriving DecidableEq, Repr

/-- Modelled from the spec: `VolumeVariables::update` derives the cached
quantities from the vertex's entry of the solution vector ("volume
variables are recomputed every Newton iteration from the current
primary-variable guess"). -/
def stokesVolVarsUpdate (solEntry : List ℚ) : StokesVolumeVariables :=
  { pressure := solEntry.getD 0 0
    massFraction := solEntry.getD 1 0
    temperature := solEntry.getD 2 0
    density := solEntry.getD 3 0
    viscosity := solEntry.getD 4 0
    enthalpy := solEntry.getD 5 0
    velocity := [solEntry.getD 6 0, solEntry.getD 7 0] }

/-- The vertex-indexed buffers allocated by
`Stokes2cniModel::addOutputVtkFields` (stokes2cnimodel.hh:110-120). -/
structure StokesVtkBuffers where
  pN : List ℚ
  delP : List ℚ
  Xw : List ℚ
  temperatures : List ℚ
  rho : List ℚ
  mu : List ℚ
  enthalpies : List ℚ
  velocity : List (List ℚ)
deriving DecidableEq, Repr

/-- The body of the vertex loop in `Stokes2cniModel::addOutputVtkFields`
(stokes2cnimodel.hh:140-159): update the volume variables from the
vertex's solution entry and write each buffer at the vertex's global
index. -/
def processStokesVertex (sol : List (List ℚ)) (bufs : StokesVtkBuffers)
    (globalIdx : ℕ) : StokesVtkBuffers :=
  let volVars := stokesVolVarsUpdate (sol.getD globalIdx [])
  { pN := bufs.pN.set globalIdx volVars.pressure
    delP := bufs.delP.set globalIdx (volVars.pressure - 10 ^ 5)
    Xw := bufs.Xw.set globalIdx volVars.massFraction
    temperatures := bufs.temperatures.set globalIdx volVars.temperature
    rho := bufs.rho.set globalIdx volVars.density
    mu := bufs.mu.set globalIdx volVars.viscosity
    enthalpies := bufs.enthalpies.set globalIdx volVars.enthalpy
    velocity := bufs.velocity.set globalIdx volVars.velocity }

/-- `Stokes2cniModel::addOutputVtkFields` (stokes2cnimodel.hh:104-170):
allocate vertex buffers of size `numVertices` (managed buffers start
zero-filled), loop over the grid's elements and their local vertices
(each element is modelled by the list of global vertex indices its
local vertices map to), fill the buffers from the volume variables
updated from each vertex's solution entry, and attach the scalar fields
under their names (`pg` for the pressure buffer, `delP`, `X_gH2O`,
`temperature`, `rhoG`, `mu`, `h`); the vector-valued velocity field is
attached separately and the buffers are returned alongside. -/
def addOutputVtkFields (numVertices : ℕ) (grid : List (List ℕ))
    (sol : List (List ℚ)) : List (String × List ℚ) × StokesVtkBuffers :=
  let bufs0 : StokesVtkBuffers :=
    { pN := List.replicate numVertices 0
      delP := List.replicate numVertices 0
      Xw := List.replicate numVertices 0
      temperatures := List.replicate numVertices 0
      rho := List.replicate numVertices 0
      mu := List.replicate numVertices 0
      enthalpies := List.replicate numVertices 0
      velocity := List.replicate numVertices [] }
  let bufs := grid.foldl
    (fun b elem => elem.foldl (processStokesVertex sol) b) bufs0
  ([("pg", bufs.pN), ("delP", bufs.delP), ("X_gH2O", bufs.Xw),
    ("temperature", bufs.temperatures), ("rhoG", bufs.rho),
    ("mu", bufs.mu), ("h", bufs.enthalpies)], bufs)

end Dumux


namespace Ewoms

/-- Does the event record the flash solve? -/
def evIsFlashSolve : UpdateEvent → Bool
  | .flashSolveEv _ _ _ _ => true
  | _ => false

/-- Does the event record the relative-permeability computation? -/
def evIsRelPerm : UpdateEvent → Bool
  | .relPermCalc => true
  | _ => false

/-- Does the event record the energy-module update? -/
def evIsEnergy : UpdateEvent → Bool
  | .energyUpdate => true
  | _ => false

/-- Does the event record the diffusion-module update? -/
def evIsDiffusion : UpdateEvent → Bool
  | .diffusionUpdate => true
  | _ => false

/-- The data carried by the first flash-solve event of a trace: the
fluid state handed to the solver, the total component amounts, the
material-law parameters and the tolerance. -/
def solveEventData (tr : List UpdateEvent) :
    Option (FluidState × List ℚ × MaterialLawParams × ℚ) :=
  tr.findSome? (fun e =>
    match e with
    | .flashSolveEv fs c mp tol => some (fs, c, mp, tol)
    | _ => none)

/-- The order the spec's sentence states for the per-control-volume
closure: flash equilibrium solve, then energy, then diffusion, then
relative permeability (each position taken as the first event of its
kind in the trace). -/
def specClosureOrder (tr : List UpdateEvent) : Prop :=
  tr.findIdx evIsFlashSolve < tr.findIdx evIsEnergy
    ∧ tr.findIdx evIsEnergy < tr.findIdx evIsDiffusion
    ∧ tr.findIdx evIsDiffusion < tr.findIdx evIsRelPerm

/-- The order the code actually composes the closure in: flash
equilibrium solve, then relative permeability, then energy, then
diffusion. -/
def codeClosureOrder (tr : List UpdateEvent) : Prop :=
  tr.findIdx evIsFlashSolve < tr.findIdx evIsRelPerm
    ∧ tr.findIdx evIsRelPerm < tr.findIdx evIsEnergy
    ∧ tr.findIdx evIsEnergy < tr.findIdx evIsDiffusion

/-- The read accessors of `FlashVolumeVariables` as operations on the
instance (each is the state part of the corresponding `const`
accessor). -/
inductive ReadOp where
  | fluidStateRead
  | intrinsicPermeabilityRead
  | relativePermeabilityRead (phaseIdx : ℕ)
  | mobilityRead (phaseIdx : ℕ)
  | porosityRead
deriving DecidableEq, Repr

/-- Apply one read accessor to the instance and keep the resulting
instance state. -/
def applyRead (vv : FlashVolumeVariables) (op : ReadOp) : FlashVolumeVariables :=
  match op with
  | .fluidStateRead => vv.fluidState.2
  | .intrinsicPermeabilityRead => vv.intrinsicPermeability.2
  | .relativePermeabilityRead i => (vv.relativePermeability i).2
  | .mobilityRead i => (vv.mobility i).2
  | .porosityRead => vv.porosity.2

end Ewoms

section ListHelpers

/-- Writing inside the list and reading back at the same index yields
the written value. -/
theorem listGetD_set_self {α : Type} (l : List α) (i : ℕ) (a d : α)
    (h : i < l.length) : (l.set i a).getD i d = a := by
  simp [List.getD_eq_getElem?_getD, List.getElem?_set_self', List.getElem?_eq_getElem h]

/-- Writing at one index leaves reads at any other index unchanged. -/
theorem listGetD_set_ne {α : Type} (l : List α) (i j : ℕ) (a d : α)
    (h : i ≠ j) : (l.set i a).getD j d = l.getD j d := by
  simp [List.getD_eq_getElem?_getD, List.getElem?_set_ne h]

/-- Reading a replicated list inside its bounds yields the replicated
value. -/
theorem listGetD_replicate {α : Type} (n i : ℕ) (c d : α) (h : i < n) :
    (List.replicate n c).getD i d = c := by
  simp [List.getD_eq_getElem?_getD, List.getElem?_replicate, h]

/-- A fold of element folds equals one fold over the flattened list of
elements. -/
theorem foldl_foldl_eq_foldl_flatten {α β : Type} (L : List (List α))
    (f : β → α → β) (b : β) :
    L.foldl (fun acc l => l.foldl f acc) b = L.flatten.foldl f b := by
  induction L generalizing b with
  | nil => rfl
  | cons hd tl ih => simp [List.foldl_append, ih]

end ListHelpers

/-- C5: `InjectionSoil`'s accessors are pure functions of their
arguments and construction-time constants and never modify the soil
data: for every position `x`, `porosity` returns `0.3`, and `K` returns
the isotropic tensor with diagonal `1e-12` when `x[1] < 22.0`
(`layerBottom_`) and the isotropic tensor with diagonal `5e-14`
otherwise. -/
theorem injectionSoil_accessors_pure (dim : ℕ) (x y : List ℚ) :
    ((Dune.InjectionSoil.init dim).K x).1
        = (if x.getD 1 0 < 22 then Dune.isotropicMatrix dim (1 / 10 ^ 12)
           else Dune.isotropicMatrix dim (5 / 10 ^ 14))
      ∧ ((Dune.InjectionSoil.init dim).K x).2 = Dune.InjectionSoil.init dim
      ∧ ((Dune.InjectionSoil.init dim).porosity y).1 = 3 / 10
      ∧ ((Dune.InjectionSoil.init dim).porosity y).2 = Dune.InjectionSoil.init dim := by
  refine ⟨?_, rfl, rfl, rfl⟩
  by_cases h : x.getD 1 0 < 22 <;>
    simp [Dune.InjectionSoil.K, Dune.InjectionSoil.init, h]

/-- C6: on the `MultiPhaseBaseProblem` base class (not overridden), the
accessors `intrinsicPermeability`, `porosity`, `heatCapacitySolid`,
`heatConductionParams`, `tortuosity`, `dispersivity` and `temperature()`
throw `std::logic_error` for every input, whereas `materialLawParams`
does not throw and returns the default-constructed static dummy
parameter object. -/
theorem multiPhaseBase_accessors_throw (prob : Ewoms.MultiPhaseBaseProblem)
    (ctx : Ewoms.Context) (s t : ℤ) :
    prob.intrinsicPermeability ctx s t
        = Except.error "Not implemented: Problem::intrinsicPermeability()"
      ∧ prob.porosity ctx s t = Except.error "Not implemented: Problem::porosity()"
      ∧ prob.heatCapacitySolid ctx s t
          = Except.error "Not implemented: Problem::heatCapacitySolid()"
      ∧ prob.heatConductionParams ctx s t
          = Except.error "Not implemented: Problem::heatConductionParams()"
      ∧ prob.tortuosity ctx s t = Except.error "Not implemented: Problem::tortuosity()"
      ∧ prob.dispersivity ctx s t = Except.error "Not implemented: Problem::dispersivity()"
      ∧ prob.temperature
          = Except.error
              "Not implemented:temperature() method not implemented by the actual problem"
      ∧ prob.materialLawParams ctx s t = Except.ok {} :=
  ⟨rfl, rfl, rfl, rfl, rfl, rfl, rfl, rfl⟩

/-- C9: for every position `x` (and any construction parameters),
`InjectionProblem::initial` returns exactly the same value vector as the
Dirichlet boundary-value function `InjectionProblem::g`: the `pWIdx`
component is `1e5 - 1000.0 * gravity_[1] * (depthBOR_ - x[1])` and the
`switchIdx` component is `1e-6`, so the initial condition coincides with
the Dirichlet boundary condition everywhere. -/
theorem injectionProblem_initial_eq_g (oLL oUR : List ℚ) (depthBOR : ℚ)
    (x : List ℚ) :
    (Dune.InjectionProblem.init oLL oUR depthBOR).initial x
        = (Dune.InjectionProblem.init oLL oUR depthBOR).g x
      ∧ ((Dune.InjectionProblem.init oLL oUR depthBOR).g x).getD Dune.pWIdx 0
          = 10 ^ 5
            - 1000 * ((Dune.InjectionProblem.init oLL oUR depthBOR).gravity_.getD 1 0)
              * ((Dune.InjectionProblem.init oLL oUR depthBOR).depthBOR_ - x.getD 1 0)
      ∧ ((Dune.InjectionProblem.init oLL oUR depthBOR).g x).getD Dune.switchIdx 0
          = 1 / 10 ^ 6 :=
  ⟨rfl, rfl, rfl⟩

/-- C10: after construction, `MultiPhaseBaseProblem::gravity()` returns
a vector whose components are all zero, except that when the
`EnableGravity` parameter is true the last component (index
`dimWorld - 1`) equals `-9.81`; the `gravity()` accessor and the only
mutating public operation, `markForGridAdaptation`, leave the problem
(and hence this vector) unchanged. -/
theorem multiPhaseBase_gravity_vector (dimWorld : ℕ) (enableGravity : Bool)
    (i : ℕ) (h : i < dimWorld) (numPhases : ℕ)
    (grid : List Ewoms.AdaptElement) :
    ((Ewoms.MultiPhaseBaseProblem.init_ dimWorld enableGravity).gravity.1.getD i 0
        = if enableGravity = true ∧ i = dimWorld - 1 then -981 / 100 else 0)
      ∧ (Ewoms.MultiPhaseBaseProblem.init_ dimWorld enableGravity).gravity.2
          = Ewoms.MultiPhaseBaseProblem.init_ dimWorld enableGravity
      ∧ ((Ewoms.MultiPhaseBaseProblem.init_ dimWorld enableGravity).markForGridAdaptation
            numPhases grid).2.2
          = Ewoms.MultiPhaseBaseProblem.init_ dimWorld enableGravity := by
  refine ⟨?_, rfl, rfl⟩
  simp only [Ewoms.MultiPhaseBaseProblem.init_, Ewoms.MultiPhaseBaseProblem.gravity]
  cases enableGravity with
  | false =>
      simp only [Bool.false_eq_true, false_and, if_false]
      exact listGetD_replicate dimWorld i 0 0 h
  | true =>
      simp only [if_true, true_and]
      by_cases hi : i = dimWorld - 1
      · subst hi
        rw [if_pos rfl]
        exact listGetD_set_self _ _ _ _ (by simp; omega)
      · rw [if_neg hi, listGetD_set_ne _ _ _ _ _ (fun hc => hi hc.symm)]
        exact listGetD_replicate dimWorld i 0 0 h

/-- Witness for C10 at `dimWorld = 3`, `enableGravity = true`, `i = 2`. -/
theorem multiPhaseBase_gravity_vector_witness :
    ((Ewoms.MultiPhaseBaseProblem.init_ 3 true).gravity.1.getD 2 0
        = if true = true ∧ 2 = 3 - 1 then -981 / 100 else 0)
      ∧ (Ewoms.MultiPhaseBaseProblem.init_ 3 true).gravity.2
          = Ewoms.MultiPhaseBaseProblem.init_ 3 true
      ∧ ((Ewoms.MultiPhaseBaseProblem.init_ 3 true).markForGridAdaptation 2 []).2.2
          = Ewoms.MultiPhaseBaseProblem.init_ 3 true :=
  multiPhaseBase_gravity_vector 3 true 2 (by decide) 2 []

/-- C1: every call to `FlashVolumeVariables::update` extracts the total
molar density of each component from the current primary variables
(`cTotal[compIdx] = priVars[cTot0Idx + compIdx]` for every `compIdx`)
and delegates the equilibrium computation to `FlashSolver::solve` with
exactly these total component amounts, the problem's material-law
parameters and the flash tolerance; `update` itself computes no phase
composition — the phase compositions stored afterwards are exactly the
solver's output. -/
theorem flashUpdate_delegates_to_solver (vv : Ewoms.FlashVolumeVariables)
    (numPhases numComponents cTot0Idx : ℕ) (ctx : Ewoms.ElementContext) :
    ∃ fsIn : Ewoms.FluidState,
      Ewoms.solveEventData (vv.update numPhases numComponents cTot0Idx ctx).2
          = some (fsIn,
              (List.range numComponents).map
                (fun compIdx => ctx.priVars.getD (cTot0Idx + compIdx) 0),
              ctx.materialLawParams,
              if ctx.flashToleranceParam ≤ 0 then
                ctx.baseEpsilon / (100 * (18 / 1000))
              else ctx.flashToleranceParam)
        ∧ (vv.update numPhases numComponents cTot0Idx ctx).1.fluidState_.moleFraction
            = (Ewoms.flashSolve fsIn ctx.materialLawParams
                ((List.range numComponents).map
                  (fun compIdx => ctx.priVars.getD (cTot0Idx + compIdx) 0))
                (if ctx.flashToleranceParam ≤ 0 then
                   ctx.baseEpsilon / (100 * (18 / 1000))
                 else ctx.flashToleranceParam)).moleFraction := by
  obtain ⟨pv, Tpv, hint, mp, por, iperm, tolp, eps⟩ := ctx
  cases hint with
  | none => exact ⟨_, rfl, rfl⟩
  | some hintFs => exact ⟨_, rfl, rfl⟩

/-- C2 counterexample: a concrete call to `FlashVolumeVariables::update`
whose trace does not follow the order stated by the spec sentence
(flash solve, then energy, then diffusion, then relative
permeability) — the relative-permeability computation comes before the
energy and diffusion updates. -/
theorem flashUpdate_closure_order_counterexample :
    ¬ Ewoms.specClosureOrder
        ((Ewoms.FlashVolumeVariables.update
            ⟨⟨300, [], [[]], [], [], []⟩, 0, [], []⟩ 2 2 0
            ⟨[1, 2], 300, none, {}, 3 / 10, [], 1 / 1000, 0⟩).2) := by
  unfold Ewoms.specClosureOrder
  decide

/-- C2 (amended): within a single call to
`FlashVolumeVariables::update`, the per-control-volume closure is
composed in the order: the flash equilibrium solve first, then the
relative permeability computation, then the energy update, then the
diffusion update. -/
theorem flashUpdate_closure_order (vv : Ewoms.FlashVolumeVariables)
    (numPhases numComponents cTot0Idx : ℕ) (ctx : Ewoms.ElementContext) :
    Ewoms.codeClosureOrder ((vv.update numPhases numComponents cTot0Idx ctx).2) := by
  obtain ⟨pv, Tpv, hint, mp, por, iperm, tolp, eps⟩ := ctx
  cases hint with
  | none =>
      simp [Ewoms.codeClosureOrder, Ewoms.FlashVolumeVariables.update,
        List.findIdx_cons, Ewoms.evIsFlashSolve, Ewoms.evIsRelPerm,
        Ewoms.evIsEnergy, Ewoms.evIsDiffusion]
  | some hintFs =>
      simp [Ewoms.codeClosureOrder, Ewoms.FlashVolumeVariables.update,
        List.findIdx_cons, Ewoms.evIsFlashSolve, Ewoms.evIsRelPerm,
        Ewoms.evIsEnergy, Ewoms.evIsDiffusion]

/-- C3: when a thermodynamic hint is available,
`FlashVolumeVariables::update` assigns the hint's fluid state but
restores the temperature: after `update` returns, the fluid state's
temperature is the one determined from the current primary variables
(via `updateTemperatures_`), never the hint's, while the fluid state
handed to the flash solve as starting point is the hint's fluid state
with only its temperature replaced. -/
theorem flashUpdate_hint_restores_temperature (vv : Ewoms.FlashVolumeVariables)
    (numPhases numComponents cTot0Idx : ℕ) (ctx : Ewoms.ElementContext)
    (hintFs : Ewoms.FluidState) (h : ctx.hint = some hintFs) :
    (vv.update numPhases numComponents cTot0Idx ctx).1.fluidState_.temperature
        = ctx.temperatureFromPriVars
      ∧ ∃ cTotal mp tol,
          Ewoms.solveEventData (vv.update numPhases numComponents cTot0Idx ctx).2
            = some ({ hintFs with temperature := ctx.temperatureFromPriVars },
                cTotal, mp, tol) := by
  obtain ⟨pv, Tpv, hint, mp, por, iperm, tolp, eps⟩ := ctx
  cases hint with
  | none => simp at h
  | some hf =>
      injection h with h
      subst h
      exact ⟨rfl, _, _, _, rfl⟩

/-- Witness for C3 at a concrete hint-carrying element context. -/
theorem flashUpdate_hint_restores_temperature_witness :
    ((⟨[5, 6], 300, some ⟨350, [7], [[8]], [9], [10], [11]⟩, ⟨2⟩, 3 / 10,
        [[1]], 1 / 1000, 0⟩ : Ewoms.ElementContext).hint
        = some ⟨350, [7], [[8]], [9], [10], [11]⟩)
      ∧ (((⟨⟨280, [1], [[2]], [3], [4], [5]⟩, 1 / 4, [[1]], [1]⟩ :
            Ewoms.FlashVolumeVariables).update 1 2 0
            ⟨[5, 6], 300, some ⟨350, [7], [[8]], [9], [10], [11]⟩, ⟨2⟩, 3 / 10,
              [[1]], 1 / 1000, 0⟩).1.fluidState_.temperature = 300
          ∧ ∃ cTotal mp tol,
              Ewoms.solveEventData
                (((⟨⟨280, [1], [[2]], [3], [4], [5]⟩, 1 / 4, [[1]], [1]⟩ :
                    Ewoms.FlashVolumeVariables).update 1 2 0
                    ⟨[5, 6], 300, some ⟨350, [7], [[8]], [9], [10], [11]⟩, ⟨2⟩,
                      3 / 10, [[1]], 1 / 1000, 0⟩).2)
                = some (⟨300, [7], [[8]], [9], [10], [11]⟩, cTotal, mp, tol)) :=
  ⟨rfl, flashUpdate_hint_restores_temperature _ 1 2 0 _ _ rfl⟩

/-- C4: `fluidState()` returns the private state owned by the
volume-variables instance, and none of the read accessors
(`fluidState`, `intrinsicPermeability`, `relativePermeability`,
`mobility`, `porosity`) modifies the instance; any sequence of such
reads leaves the instance exactly as it was. -/
theorem flashVolumeVariables_reads_pure (vv : Ewoms.FlashVolumeVariables)
    (phaseIdx : ℕ) (ops : List Ewoms.ReadOp) :
    vv.fluidState.1 = vv.fluidState_
      ∧ vv.fluidState.2 = vv
      ∧ vv.intrinsicPermeability.2 = vv
      ∧ (vv.relativePermeability phaseIdx).2 = vv
      ∧ (vv.mobility phaseIdx).2 = vv
      ∧ vv.porosity.2 = vv
      ∧ ops.foldl Ewoms.applyRead vv = vv := by
  refine ⟨rfl, rfl, rfl, rfl, rfl, rfl, ?_⟩
  induction ops with
  | nil => rfl
  | cons op rest ih =>
      have hstep : Ewoms.applyRead vv op = vv := by cases op <;> rfl
      simpa [hstep] using ih

/-- Each buffer write of the Stokes vertex loop preserves the buffer
lengths. -/
theorem processStokesVertex_lengths (sol : List (List ℚ))
    (b : Dumux.StokesVtkBuffers) (g : ℕ) :
    (Dumux.processStokesVertex sol b g).pN.length = b.pN.length
      ∧ (Dumux.processStokesVertex sol b g).delP.length = b.delP.length := by
  simp [Dumux.processStokesVertex]

/-- Invariant of the (flattened) Stokes vertex loop: once the vertex `v`
has been written — or if the property already held — the `pN` buffer
holds the pressure of the volume variables updated from `v`'s solution
entry and the `delP` buffer holds that pressure minus `1e5`. -/
theorem stokesFold_invariant (sol : List (List ℚ)) (ws : List ℕ)
    (b : Dumux.StokesVtkBuffers) (v : ℕ)
    (hv : v < b.pN.length) (hd : v < b.delP.length)
    (h : v ∈ ws
      ∨ (b.pN.getD v 0 = (Dumux.stokesVolVarsUpdate (sol.getD v [])).pressure
          ∧ b.delP.getD v 0
            = (Dumux.stokesVolVarsUpdate (sol.getD v [])).pressure - 10 ^ 5)) :
    (ws.foldl (Dumux.processStokesVertex sol) b).pN.getD v 0
        = (Dumux.stokesVolVarsUpdate (sol.getD v [])).pressure
      ∧ (ws.foldl (Dumux.processStokesVertex sol) b).delP.getD v 0
        = (Dumux.stokesVolVarsUpdate (sol.getD v [])).pressure - 10 ^ 5 := by
  induction ws generalizing b with
  | nil =>
      simp only [List.foldl_nil]
      rcases h with h | h
      · simp at h
      · exact h
  | cons g tl ih =>
      simp only [List.foldl_cons]
      apply ih
      · exact (processStokesVertex_lengths sol b g).1 ▸ hv
      · exact (processStokesVertex_lengths sol b g).2 ▸ hd
      by_cases hgv : g = v
      · subst hgv
        refine Or.inr ⟨?_, ?_⟩
        · exact listGetD_set_self _ _ _ _ hv
        · exact listGetD_set_self _ _ _ _ hd
      · rcases h with h | h
        · rcases List.mem_cons.mp h with h | h
          · exact absurd h.symm hgv
          · exact Or.inl h
        · refine Or.inr ⟨?_, ?_⟩
          · rw [show (Dumux.processStokesVertex sol b g).pN
                  = b.pN.set g (Dumux.stokesVolVarsUpdate (sol.getD g [])).pressure from rfl,
                listGetD_set_ne _ _ _ _ _ hgv]
            exact h.1
          · rw [show (Dumux.processStokesVertex sol b g).delP
                  = b.delP.set g
                      ((Dumux.stokesVolVarsUpdate (sol.getD g [])).pressure - 10 ^ 5) from rfl,
                listGetD_set_ne _ _ _ _ _ hgv]
            exact h.2

/-- C8: in `Stokes2cniModel::addOutputVtkFields`, for every vertex of
the grid (every global vertex index visited by the element loop), the
value attached to the writer as `delP` equals the value attached as
`pg` minus `1e5`, and the `pg` value equals the pressure of the volume
variables updated from that vertex's solution entry. -/
theorem stokes_delP_is_pg_minus_1e5 (numVertices : ℕ) (grid : List (List ℕ))
    (sol : List (List ℚ)) (v : ℕ) (hv : v < numVertices)
    (hmem : v ∈ grid.flatten) :
    ("pg", (Dumux.addOutputVtkFields numVertices grid sol).2.pN)
        ∈ (Dumux.addOutputVtkFields numVertices grid sol).1
      ∧ ("delP", (Dumux.addOutputVtkFields numVertices grid sol).2.delP)
        ∈ (Dumux.addOutputVtkFields numVertices grid sol).1
      ∧ (Dumux.addOutputVtkFields numVertices grid sol).2.delP.getD v 0
          = (Dumux.addOutputVtkFields numVertices grid sol).2.pN.getD v 0 - 10 ^ 5
      ∧ (Dumux.addOutputVtkFields numVertices grid sol).2.pN.getD v 0
          = (Dumux.stokesVolVarsUpdate (sol.getD v [])).pressure := by
  have hb : (Dumux.addOutputVtkFields numVertices grid sol).2
      = grid.flatten.foldl (Dumux.processStokesVertex sol)
          { pN := List.replicate numVertices 0
            delP := List.replicate numVertices 0
            Xw := List.replicate numVertices 0
            temperatures := List.replicate numVertices 0
            rho := List.replicate numVertices 0
            mu := List.replicate numVertices 0
            enthalpies := List.replicate numVertices 0
            velocity := List.replicate numVertices [] } := by
    simp [Dumux.addOutputVtkFields, foldl_foldl_eq_foldl_flatten]
  have hinv := stokesFold_invariant sol grid.flatten
    { pN := List.replicate numVertices 0
      delP := List.replicate numVertices 0
      Xw := List.replicate numVertices 0
      temperatures := List.replicate numVertices 0
      rho := List.replicate numVertices 0
      mu := List.replicate numVertices 0
      enthalpies := List.replicate numVertices 0
      velocity := List.replicate numVertices [] } v
    (by simpa using hv) (by simpa using hv) (Or.inl hmem)
  refine ⟨?_, ?_, ?_, ?_⟩
  · simp [Dumux.addOutputVtkFields]
  · simp [Dumux.addOutputVtkFields]
  · rw [hb, hinv.1, hinv.2]
  · rw [hb, hinv.1]

/-- Witness for C8 on a two-element grid with three vertices. -/
theorem stokes_delP_is_pg_minus_1e5_witness :
    (1 : ℕ) < 3 ∧ 1 ∈ ([[0, 1], [1, 2]] : List (List ℕ)).flatten
      ∧ (("pg", (Dumux.addOutputVtkFields 3 [[0, 1], [1, 2]] [[7], [8], [9]]).2.pN)
            ∈ (Dumux.addOutputVtkFields 3 [[0, 1], [1, 2]] [[7], [8], [9]]).1
          ∧ ("delP", (Dumux.addOutputVtkFields 3 [[0, 1], [1, 2]] [[7], [8], [9]]).2.delP)
            ∈ (Dumux.addOutputVtkFields 3 [[0, 1], [1, 2]] [[7], [8], [9]]).1
          ∧ (Dumux.addOutputVtkFields 3 [[0, 1], [1, 2]] [[7], [8], [9]]).2.delP.getD 1 0
              = (Dumux.addOutputVtkFields 3 [[0, 1], [1, 2]] [[7], [8], [9]]).2.pN.getD 1 0
                - 10 ^ 5
          ∧ (Dumux.addOutputVtkFields 3 [[0, 1], [1, 2]] [[7], [8], [9]]).2.pN.getD 1 0
              = (Dumux.stokesVolVarsUpdate
                  (([[7], [8], [9]] : List (List ℚ)).getD 1 [])).pressure) :=
  ⟨by decide, by decide,
    stokes_delP_is_pg_minus_1e5 3 [[0, 1], [1, 2]] [[7], [8], [9]] 1
      (by decide) (by decide)⟩

/-- The shape of the gas-dissolution-factor buffer after one dof write:
written at the dof's global index with the code's formula when the
parameter is enabled, untouched otherwise (the other buffer writes do
not affect it). -/
theorem processDof_gasBuffer (params : Ewoms.VtkBlackOilParams)
    (fsys : Ewoms.BlackOilFluidSystem) (m : Ewoms.VtkBlackOilModule)
    (dof : Ewoms.BlackOilDofData) :
    (Ewoms.VtkBlackOilModule.processDof params fsys m dof).gasDissolutionFactor_
      = if params.vtkWriteGasDissolutionFactor then
          m.gasDissolutionFactor_.set dof.globalDofIdx
            (dof.massFracOG / fsys.referenceDensityGas dof.pvtRegionIdx
              * fsys.referenceDensityOil dof.pvtRegionIdx / (1 - dof.massFracOG))
        else m.gasDissolutionFactor_ := by
  obtain ⟨p1, p2, p3, p4, p5⟩ := params
  cases p1 <;> cases p2 <;> cases p3 <;> cases p4 <;> cases p5 <;> rfl

/-- The dof loop preserves the length of the gas-dissolution-factor
buffer. -/
theorem vtkBlackOil_gasBuffer_length (params : Ewoms.VtkBlackOilParams)
    (fsys : Ewoms.BlackOilFluidSystem) (dofs : List Ewoms.BlackOilDofData)
    (m : Ewoms.VtkBlackOilModule) :
    (Ewoms.VtkBlackOilModule.processElement params fsys m dofs).gasDissolutionFactor_.length
      = m.gasDissolutionFactor_.length := by
  induction dofs generalizing m with
  | nil => rfl
  | cons e tl ih =>
      have step : Ewoms.VtkBlackOilModule.processElement params fsys m (e :: tl)
          = Ewoms.VtkBlackOilModule.processElement params fsys
              (Ewoms.VtkBlackOilModule.processDof params fsys m e) tl := rfl
      rw [step, ih, processDof_gasBuffer]
      split <;> simp

/-- Dofs with other global indices do not change the
gas-dissolution-factor entry at `idx`. -/
theorem vtkBlackOil_gasBuffer_frame (params : Ewoms.VtkBlackOilParams)
    (fsys : Ewoms.BlackOilFluidSystem) (dofs : List Ewoms.BlackOilDofData)
    (m : Ewoms.VtkBlackOilModule) (idx : ℕ)
    (h : idx ∉ dofs.map Ewoms.BlackOilDofData.globalDofIdx) :
    (Ewoms.VtkBlackOilModule.processElement params fsys m dofs).gasDissolutionFactor_.getD idx 0
      = m.gasDissolutionFactor_.getD idx 0 := by
  induction dofs generalizing m with
  | nil => rfl
  | cons e tl ih =>
      have hd : e.globalDofIdx ≠ idx := by
        intro heq
        exact h (by simp [heq])
      have htl : idx ∉ tl.map Ewoms.BlackOilDofData.globalDofIdx := by
        intro hin
        exact h (by simp [hin])
      have step : Ewoms.VtkBlackOilModule.processElement params fsys m (e :: tl)
          = Ewoms.VtkBlackOilModule.processElement params fsys
              (Ewoms.VtkBlackOilModule.processDof params fsys m e) tl := rfl
      rw [step, ih _ htl, processDof_gasBuffer]
      split
      · exact listGetD_set_ne _ _ _ _ _ hd
      · rfl

/-- When the gas-dissolution-factor output is disabled, the dof loop
leaves the buffer untouched. -/
theorem vtkBlackOil_gasBuffer_disabled (params : Ewoms.VtkBlackOilParams)
    (fsys : Ewoms.BlackOilFluidSystem) (dofs : List Ewoms.BlackOilDofData)
    (m : Ewoms.VtkBlackOilModule)
    (h : params.vtkWriteGasDissolutionFactor = false) :
    (Ewoms.VtkBlackOilModule.processElement params fsys m dofs).gasDissolutionFactor_
      = m.gasDissolutionFactor_ := by
  induction dofs generalizing m with
  | nil => rfl
  | cons e tl ih =>
      have step : Ewoms.VtkBlackOilModule.processElement params fsys m (e :: tl)
          = Ewoms.VtkBlackOilModule.processElement params fsys
              (Ewoms.VtkBlackOilModule.processDof params fsys m e) tl := rfl
      rw [step, ih, processDof_gasBuffer, if_neg (by simp [h])]

/-- With the output enabled and pairwise-distinct global dof indices,
after the dof loop the buffer holds the code's formula at every
processed dof's index. -/
theorem vtkBlackOil_gasBuffer_invariant (params : Ewoms.VtkBlackOilParams)
    (fsys : Ewoms.BlackOilFluidSystem) (dofs : List Ewoms.BlackOilDofData)
    (m : Ewoms.VtkBlackOilModule) (d : Ewoms.BlackOilDofData)
    (hen : params.vtkWriteGasDissolutionFactor = true)
    (hlen : d.globalDofIdx < m.gasDissolutionFactor_.length)
    (hnodup : (dofs.map Ewoms.BlackOilDofData.globalDofIdx).Nodup)
    (hmem : d ∈ dofs) :
    (Ewoms.VtkBlackOilModule.processElement params fsys m dofs).gasDissolutionFactor_.getD
        d.globalDofIdx 0
      = d.massFracOG / fsys.referenceDensityGas d.pvtRegionIdx
          * fsys.referenceDensityOil d.pvtRegionIdx / (1 - d.massFracOG) := by
  induction dofs generalizing m with
  | nil => simp at hmem
  | cons e tl ih =>
      have step : Ewoms.VtkBlackOilModule.processElement params fsys m (e :: tl)
          = Ewoms.VtkBlackOilModule.processElement params fsys
              (Ewoms.VtkBlackOilModule.processDof params fsys m e) tl := rfl
      rcases List.mem_cons.mp hmem with rfl | hmem'
      · have hnotin : d.globalDofIdx ∉ tl.map Ewoms.BlackOilDofData.globalDofIdx :=
          (List.nodup_cons.mp hnodup).1
        rw [step, vtkBlackOil_gasBuffer_frame params fsys tl _ _ hnotin,
          processDof_gasBuffer, if_pos hen]
        exact listGetD_set_self _ _ _ _ hlen
      · have hlen' : d.globalDofIdx
            < (Ewoms.VtkBlackOilModule.processDof params fsys m e).gasDissolutionFactor_.length := by
          rw [processDof_gasBuffer]
          split <;> simpa using hlen
        rw [step]
        exact ih _ hlen' (List.nodup_cons.mp hnodup).2 hmem'

/-- C7 counterexample: with `VtkWriteGasDissolutionFactor` enabled but a
writer that is not a `VtkMultiWriter`, `commitBuffers` publishes
nothing at all — in particular nothing under the name `R_s` — so the
claim as stated (committing happens whenever the parameter is enabled)
fails. -/
theorem vtkBlackOil_commit_requires_vtk_writer :
    (⟨true, false, false, false, false⟩ : Ewoms.VtkBlackOilParams).vtkWriteGasDissolutionFactor
        = true
      ∧ Ewoms.VtkBlackOilModule.commitBuffers
          (Ewoms.VtkBlackOilModule.allocBuffers Ewoms.VtkBlackOilModule.empty
            ⟨true, false, false, false, false⟩ 1)
          ⟨true, false, false, false, false⟩ ⟨false⟩ = [] :=
  ⟨rfl, rfl⟩

/-- C7 (amended): when `VtkWriteGasDissolutionFactor` is enabled,
`allocBuffers` allocates the gas-dissolution-factor buffer, the dof loop
sets, for every primary degree of freedom, the entry at that dof's
global index to `X_oG / rho_gas,ref * rho_oil,ref / (1 - X_oG)`, and
`commitBuffers` publishes the buffer under the name `R_s` provided the
writer is a `VtkMultiWriter`; when the parameter is disabled, the buffer
is neither allocated, nor filled, nor committed. -/
theorem vtkBlackOil_gasDissolutionFactor_output (params : Ewoms.VtkBlackOilParams)
    (fsys : Ewoms.BlackOilFluidSystem) (numDof : ℕ)
    (dofs : List Ewoms.BlackOilDofData) (d : Ewoms.BlackOilDofData)
    (writer : Ewoms.VtkBlackOilModule.BaseOutputWriter)
    (hnodup : (dofs.map Ewoms.BlackOilDofData.globalDofIdx).Nodup)
    (hmem : d ∈ dofs) (hidx : d.globalDofIdx < numDof)
    (hw : writer.isVtkMultiWriter = true) :
    (params.vtkWriteGasDissolutionFactor = true →
        (Ewoms.VtkBlackOilModule.allocBuffers Ewoms.VtkBlackOilModule.empty params
            numDof).gasDissolutionFactor_
            = List.replicate numDof 0
          ∧ (Ewoms.VtkBlackOilModule.processElement params fsys
                (Ewoms.VtkBlackOilModule.allocBuffers Ewoms.VtkBlackOilModule.empty params numDof)
                dofs).gasDissolutionFactor_.getD d.globalDofIdx 0
              = d.massFracOG / fsys.referenceDensityGas d.pvtRegionIdx
                  * fsys.referenceDensityOil d.pvtRegionIdx / (1 - d.massFracOG)
          ∧ ("R_s",
              (Ewoms.VtkBlackOilModule.processElement params fsys
                (Ewoms.VtkBlackOilModule.allocBuffers Ewoms.VtkBlackOilModule.empty params numDof)
                dofs).gasDissolutionFactor_)
              ∈ Ewoms.VtkBlackOilModule.commitBuffers
                  (Ewoms.VtkBlackOilModule.processElement params fsys
                    (Ewoms.VtkBlackOilModule.allocBuffers Ewoms.VtkBlackOilModule.empty params numDof)
                    dofs) params writer)
      ∧ (params.vtkWriteGasDissolutionFactor = false →
          (Ewoms.VtkBlackOilModule.allocBuffers Ewoms.VtkBlackOilModule.empty params
              numDof).gasDissolutionFactor_ = []
            ∧ (Ewoms.VtkBlackOilModule.processElement params fsys
                  (Ewoms.VtkBlackOilModule.allocBuffers Ewoms.VtkBlackOilModule.empty params numDof)
                  dofs).gasDissolutionFactor_ = []
            ∧ ∀ buf : List ℚ,
                ("R_s", buf)
                  ∉ Ewoms.VtkBlackOilModule.commitBuffers
                      (Ewoms.VtkBlackOilModule.processElement params fsys
                        (Ewoms.VtkBlackOilModule.allocBuffers Ewoms.VtkBlackOilModule.empty params
                          numDof)
                        dofs) params writer) := by
  constructor
  · intro hen
    have halloc : (Ewoms.VtkBlackOilModule.allocBuffers Ewoms.VtkBlackOilModule.empty params
        numDof).gasDissolutionFactor_ = List.replicate numDof 0 := by
      simp [Ewoms.VtkBlackOilModule.allocBuffers, hen]
    refine ⟨halloc, ?_, ?_⟩
    · exact vtkBlackOil_gasBuffer_invariant params fsys dofs _ d hen
        (by rw [halloc]; simpa using hidx) hnodup hmem
    · simp [Ewoms.VtkBlackOilModule.commitBuffers, hw, hen]
  · intro hdis
    have halloc : (Ewoms.VtkBlackOilModule.allocBuffers Ewoms.VtkBlackOilModule.empty params
        numDof).gasDissolutionFactor_ = [] := by
      simp [Ewoms.VtkBlackOilModule.allocBuffers, Ewoms.VtkBlackOilModule.empty, hdis]
    refine ⟨halloc, ?_, ?_⟩
    · rw [vtkBlackOil_gasBuffer_disabled params fsys dofs _ hdis, halloc]
    · intro buf
      have h1 : ("R_s" : String) ≠ "R_s,sat" := by decide
      have h2 : ("R_s" : String) ≠ "B_g" := by decide
      have h3 : ("R_s" : String) ≠ "B_o" := by decide
      have h4 : ("R_s" : String) ≠ "pressure_sat,o" := by decide
      simp only [Ewoms.VtkBlackOilModule.commitBuffers, hw, hdis, Bool.not_true,
        if_false, Bool.false_eq_true, List.nil_append]
      split_ifs <;> simp_all

/-- Witness for C7 (amended) with the gas-dissolution-factor output
enabled, two dofs with distinct global indices and a `VtkMultiWriter`
writer. -/
theorem vtkBlackOil_gasDissolutionFactor_output_witness :
    (([⟨0, 1, 2, 1/2, 1/3, 0⟩, ⟨1, 1, 2, 1/4, 1/5, 0⟩] :
          List Ewoms.BlackOilDofData).map Ewoms.BlackOilDofData.globalDofIdx).Nodup
      ∧ (⟨0, 1, 2, 1/2, 1/3, 0⟩ : Ewoms.BlackOilDofData)
          ∈ ([⟨0, 1, 2, 1/2, 1/3, 0⟩, ⟨1, 1, 2, 1/4, 1/5, 0⟩] : List Ewoms.BlackOilDofData)
      ∧ (⟨0, 1, 2, 1/2, 1/3, 0⟩ : Ewoms.BlackOilDofData).globalDofIdx < 2
      ∧ (⟨true⟩ : Ewoms.VtkBlackOilModule.BaseOutputWriter).isVtkMultiWriter = true
      ∧ (((⟨true, false, false, false, false⟩ :
              Ewoms.VtkBlackOilParams).vtkWriteGasDissolutionFactor = true →
            (Ewoms.VtkBlackOilModule.allocBuffers Ewoms.VtkBlackOilModule.empty
                ⟨true, false, false, false, false⟩ 2).gasDissolutionFactor_
                = List.replicate 2 0
              ∧ (Ewoms.VtkBlackOilModule.processElement ⟨true, false, false, false, false⟩
                    ⟨fun _ => 2, fun _ => 4, fun _ _ _ => 0, fun _ _ _ _ => 0,
                      fun _ _ _ => 0, fun _ _ _ => 0⟩
                    (Ewoms.VtkBlackOilModule.allocBuffers Ewoms.VtkBlackOilModule.empty
                      ⟨true, false, false, false, false⟩ 2)
                    [⟨0, 1, 2, 1/2, 1/3, 0⟩, ⟨1, 1, 2, 1/4, 1/5, 0⟩]).gasDissolutionFactor_.getD
                  (⟨0, 1, 2, 1/2, 1/3, 0⟩ : Ewoms.BlackOilDofData).globalDofIdx 0
                  = (⟨0, 1, 2, 1/2, 1/3, 0⟩ : Ewoms.BlackOilDofData).massFracOG
                      / (⟨fun _ => 2, fun _ => 4, fun _ _ _ => 0, fun _ _ _ _ => 0,
                          fun _ _ _ => 0, fun _ _ _ => 0⟩ :
                          Ewoms.BlackOilFluidSystem).referenceDensityGas
                        (⟨0, 1, 2, 1/2, 1/3, 0⟩ : Ewoms.BlackOilDofData).pvtRegionIdx
                      * (⟨fun _ => 2, fun _ => 4, fun _ _ _ => 0, fun _ _ _ _ => 0,
                          fun _ _ _ => 0, fun _ _ _ => 0⟩ :
                          Ewoms.BlackOilFluidSystem).referenceDensityOil
                        (⟨0, 1, 2, 1/2, 1/3, 0⟩ : Ewoms.BlackOilDofData).pvtRegionIdx
                      / (1 - (⟨0, 1, 2, 1/2, 1/3, 0⟩ : Ewoms.BlackOilDofData).massFracOG)
              ∧ ("R_s",
                  (Ewoms.VtkBlackOilModule.processElement ⟨true, false, false, false, false⟩
                    ⟨fun _ => 2, fun _ => 4, fun _ _ _ => 0, fun _ _ _ _ => 0,
                      fun _ _ _ => 0, fun _ _ _ => 0⟩
                    (Ewoms.VtkBlackOilModule.allocBuffers Ewoms.VtkBlackOilModule.empty
                      ⟨true, false, false, false, false⟩ 2)
                    [⟨0, 1, 2, 1/2, 1/3, 0⟩, ⟨1, 1, 2, 1/4, 1/5, 0⟩]).gasDissolutionFactor_)
                  ∈ Ewoms.VtkBlackOilModule.commitBuffers
                      (Ewoms.VtkBlackOilModule.processElement ⟨true, false, false, false, false⟩
                        ⟨fun _ => 2, fun _ => 4, fun _ _ _ => 0, fun _ _ _ _ => 0,
                          fun _ _ _ => 0, fun _ _ _ => 0⟩
                        (Ewoms.VtkBlackOilModule.allocBuffers Ewoms.VtkBlackOilModule.empty
                          ⟨true, false, false, false, false⟩ 2)
                        [⟨0, 1, 2, 1/2, 1/3, 0⟩, ⟨1, 1, 2, 1/4, 1/5, 0⟩])
                      ⟨true, false, false, false, false⟩ ⟨true⟩)
          ∧ ((⟨true, false, false, false, false⟩ :
                Ewoms.VtkBlackOilParams).vtkWriteGasDissolutionFactor = false →
              (Ewoms.VtkBlackOilModule.allocBuffers Ewoms.VtkBlackOilModule.empty
                  ⟨true, false, false, false, false⟩ 2).gasDissolutionFactor_ = []
                ∧ (Ewoms.VtkBlackOilModule.processElement ⟨true, false, false, false, false⟩
                      ⟨fun _ => 2, fun _ => 4, fun _ _ _ => 0, fun _ _ _ _ => 0,
                        fun _ _ _ => 0, fun _ _ _ => 0⟩
                      (Ewoms.VtkBlackOilModule.allocBuffers Ewoms.VtkBlackOilModule.empty
                        ⟨true, false, false, false, false⟩ 2)
                      [⟨0, 1, 2, 1/2, 1/3, 0⟩, ⟨1, 1, 2, 1/4, 1/5, 0⟩]).gasDissolutionFactor_
                  = []
                ∧ ∀ buf : List ℚ,
                    ("R_s", buf)
                      ∉ Ewoms.VtkBlackOilModule.commitBuffers
                          (Ewoms.VtkBlackOilModule.processElement
                            ⟨true, false, false, false, false⟩
                            ⟨fun _ => 2, fun _ => 4, fun _ _ _ => 0, fun _ _ _ _ => 0,
                              fun _ _ _ => 0, fun _ _ _ => 0⟩
                            (Ewoms.VtkBlackOilModule.allocBuffers Ewoms.VtkBlackOilModule.empty
                              ⟨true, false, false, false, false⟩ 2)
                            [⟨0, 1, 2, 1/2, 1/3, 0⟩, ⟨1, 1, 2, 1/4, 1/5, 0⟩])
                          ⟨true, false, false, false, false⟩ ⟨true⟩)) :=
  ⟨by decide, List.mem_cons_self _ _, by decide, rfl,
    vtkBlackOil_gasDissolutionFactor_output ⟨true, false, false, false, false⟩
      ⟨fun _ => 2, fun _ => 4, fun _ _ _ => 0, fun _ _ _ _ => 0,
        fun _ _ _ => 0, fun _ _ _ => 0⟩ 2
      [⟨0, 1, 2, 1/2, 1/3, 0⟩, ⟨1, 1, 2, 1/4, 1/5, 0⟩] ⟨0, 1, 2, 1/2, 1/3, 0⟩ ⟨true⟩
      (by decide) (List.mem_cons_self _ _) (by decide) rfl⟩
